import Mathlib

/-!
Formal model of `src/app.py` (Streamlit dashboard "Consulta CNO - Base dos Dados").

The heart of the program is the pure function `montar_query`, which assembles a
BigQuery SQL string from optional filters (state code `uf`, city-name list,
`data_inicio` date bounds and a row limit).  The model below translates that
function and the small pieces of control flow around it (the submission
handler, the cached city lookup, and the CSV export encoding) into Lean.

Conventions used throughout:
* Python `None` becomes `Option.none`; Python truthiness of optional strings
  and optional lists is made explicit by `tvs` and `tvl` (empty string, empty
  list and `None` are falsy).
* Python f-string interpolation becomes string concatenation (`++`).
* The fixed SQL template text of the f-string in `montar_query`
  (src/app.py lines 134-279, everything before the `where_clause`
  interpolation point) is reproduced verbatim in `corpo_query`.  It is stored
  as a concatenation of the segments `corpo_q1 ... corpo_q13`, split at
  newline boundaries, purely so that proofs can process the text piecewise;
  the concatenation is exactly the source text.
* `str(limite_linhas)` for a Python `int` is `Int.repr`.
-/

namespace ConsultaCNO

/-- The single-quote character, which the program interpolates around SQL
string literals and escapes inside city names. -/
def aspa : Char := '\x27'

/-- Truth value, in the sense of Python, of an optional string argument:
`None` and the empty string are falsy. -/
def tvs : Option String → Bool
  | none => false
  | some s => s != ""

/-- Truth value, in the sense of Python, of an optional list argument:
`None` and the empty list are falsy. -/
def tvl : Option (List String) → Bool
  | none => false
  | some l => !l.isEmpty

/-- The string carried by an optional argument (the value interpolated by the
f-string when the argument is truthy). -/
def getS (o : Option String) : String := o.getD ""

/-- The list carried by an optional list argument. -/
def getL (o : Option (List String)) : List String := o.getD []

/-- One step of Python `c.replace("'", "''")`: a single-quote character is
doubled, every other character is kept. -/
def dupAspa (ch : Char) : List Char := if ch = aspa then [aspa, aspa] else [ch]

/-- Embeds the Python expression `c.replace("'", "''")` of src/app.py line 126.
`str.replace` with the one-character pattern `'` substitutes every occurrence
of the single quote by two single quotes, i.e. it acts characterwise. -/
def escapa_aspas (c : String) : String := String.mk (c.data.flatMap dupAspa)

/-- Embeds `[c.replace("'", "''") for c in cidades_nomes]` (src/app.py line 126). -/
def nomes_escapados (cidades_nomes : List String) : List String :=
  cidades_nomes.map escapa_aspas

/-- Embeds Python `sep.join(xs)`. -/
def join_sep (sep : String) : List String → String
  | [] => ""
  | [a] => a
  | a :: b :: t => a ++ sep ++ join_sep sep (b :: t)

/-- Embeds `", ".join(f"'{n}'" for n in nomes_escapados)` (src/app.py line 127). -/
def lista_in (cidades_nomes : List String) : String :=
  join_sep ", " ((nomes_escapados cidades_nomes).map
    (fun n => "\x27" ++ n ++ "\x27"))

/-- Embeds the date-range branch of `montar_query` (src/app.py lines 110-118):
`if data_inicio_min and data_inicio_max: ... elif data_inicio_min: ...
elif data_inicio_max: ...`, each appending one clause to `filtros`. -/
def filtro_data (data_inicio_min data_inicio_max : Option String) : List String :=
  if tvs data_inicio_min && tvs data_inicio_max then
    ["dados.data_inicio BETWEEN DATE \x27" ++ getS data_inicio_min ++
      "\x27 AND DATE \x27" ++ getS data_inicio_max ++ "\x27"]
  else if tvs data_inicio_min then
    ["dados.data_inicio >= DATE \x27" ++ getS data_inicio_min ++ "\x27"]
  else if tvs data_inicio_max then
    ["dados.data_inicio <= DATE \x27" ++ getS data_inicio_max ++ "\x27"]
  else []

/-- Embeds the `filtros` list built by `montar_query` (src/app.py lines
108-128): the date clause(s), then the `uf` equality clause when `uf_filtrada`
is truthy, then the city `IN` clause when `cidades_nomes` is truthy.  The
append order matches the order of the Python `append` calls. -/
def filtros (uf_filtrada : Option String) (cidades_nomes : Option (List String))
    (data_inicio_min data_inicio_max : Option String) : List String :=
  filtro_data data_inicio_min data_inicio_max
    ++ (if tvs uf_filtrada then
          ["dados.sigla_uf = \x27" ++ getS uf_filtrada ++ "\x27"] else [])
    ++ (if tvl cidades_nomes then
          ["diretorio_id_municipio.nome IN (" ++ lista_in (getL cidades_nomes) ++ ")"]
        else [])

/-- Embeds src/app.py lines 130-132: `where_clause = ""` unless `filtros` is
non-empty, in which case it is `"WHERE " + " AND ".join(filtros)`. -/
def where_clause (uf_filtrada : Option String) (cidades_nomes : Option (List String))
    (data_inicio_min data_inicio_max : Option String) : String :=
  let fs := filtros uf_filtrada cidades_nomes data_inicio_min data_inicio_max
  if fs.isEmpty then "" else "WHERE " ++ join_sep " AND " fs

/-- Segments of the fixed SQL template text (see `corpo_query`). -/
def corpo_q1 : String := "\n    WITH \n    dicionario_qualificacao_contribuinte AS (\n        SELECT\n            chave AS chave_qualificacao_contribuinte,\n            valor AS descricao_qualificacao_contribuinte\n        FROM `basedosdados.br_rf_cno.dicionario`\n        WHERE\n            nome_coluna = \x27qualificacao_contribuinte\x27\n            AND id_tabela = \x27vinculos\x27\n    ),\n    dicionario_categoria AS (\n        SELECT"

def corpo_q2 : String := "\n            chave AS chave_categoria,\n            valor AS descricao_categoria\n        FROM `basedosdados.br_rf_cno.dicionario`\n        WHERE\n            nome_coluna = \x27categoria\x27\n            AND id_tabela = \x27areas\x27\n    ),\n    dicionario_destinacao AS (\n        SELECT\n            chave AS chave_destinacao,\n            valor AS descricao_destinacao\n        FROM `basedosdados.br_rf_cno.dicionario`\n        WHERE"

def corpo_q3 : String := "\n            nome_coluna = \x27destinacao\x27\n            AND id_tabela = \x27areas\x27\n    ),\n    dicionario_tipo_obra AS (\n        SELECT\n            chave AS chave_tipo_obra,\n            valor AS descricao_tipo_obra\n        FROM `basedosdados.br_rf_cno.dicionario`\n        WHERE\n            nome_coluna = \x27tipo_obra\x27\n            AND id_tabela = \x27areas\x27\n    ),\n    dicionario_tipo_area AS (\n        SELECT"

def corpo_q4 : String := "\n            chave AS chave_tipo_area,\n            valor AS descricao_tipo_area\n        FROM `basedosdados.br_rf_cno.dicionario`\n        WHERE\n            nome_coluna = \x27tipo_area\x27\n            AND id_tabela = \x27areas\x27\n    ),\n    dicionario_tipo_area_complementar AS (\n        SELECT\n            chave AS chave_tipo_area_complementar,\n            valor AS descricao_tipo_area_complementar"

def corpo_q5 : String := "\n        FROM `basedosdados.br_rf_cno.dicionario`\n        WHERE\n            nome_coluna = \x27tipo_area_complementar\x27\n            AND id_tabela = \x27areas\x27\n    ),\n\n    -- Enriquecendo vínculos com a descrição da qualificação\n    vinculos_enriquecidos AS (\n        SELECT\n            dados.id_cno,\n            STRING_AGG(\n                DISTINCT descricao_qualificacao_contribuinte,\n                \x27, \x27"

def corpo_q6 : String := "\n            ) AS qualificacao_contribuinte\n        FROM `basedosdados.br_rf_cno.vinculos` AS dados\n        LEFT JOIN dicionario_qualificacao_contribuinte\n            ON dados.qualificacao_contribuinte = chave_qualificacao_contribuinte\n        GROUP BY dados.id_cno\n    ),\n\n    -- Enriquecendo áreas com descrições e agregando por obra\n    areas_enriquecidas AS (\n        SELECT\n            dados.id_cno,"

def corpo_q7 : String := "\n            STRING_AGG(DISTINCT descricao_categoria, \x27, \x27) AS categoria,\n            STRING_AGG(DISTINCT descricao_destinacao, \x27, \x27) AS destinacao,\n            STRING_AGG(DISTINCT descricao_tipo_obra, \x27, \x27) AS tipo_obra,\n            STRING_AGG(DISTINCT descricao_tipo_area, \x27, \x27) AS tipo_area,\n            STRING_AGG(\n                DISTINCT descricao_tipo_area_complementar,\n                \x27, \x27"

def corpo_q8 : String := "\n            ) AS tipo_area_complementar,\n            SUM(dados.metragem) AS metragem_total\n        FROM `basedosdados.br_rf_cno.areas` AS dados\n        LEFT JOIN dicionario_categoria\n            ON dados.categoria = chave_categoria\n        LEFT JOIN dicionario_destinacao\n            ON dados.destinacao = chave_destinacao\n        LEFT JOIN dicionario_tipo_obra\n            ON dados.tipo_obra = chave_tipo_obra"

def corpo_q9 : String := "\n        LEFT JOIN dicionario_tipo_area\n            ON dados.tipo_area = chave_tipo_area\n        LEFT JOIN dicionario_tipo_area_complementar\n            ON dados.tipo_area_complementar = chave_tipo_area_complementar\n        GROUP BY dados.id_cno\n    )\n\n    SELECT\n        dados.data_situacao as data_situacao,\n        dados.data_inicio as data_inicio,\n        dados.sigla_uf AS sigla_uf,"

def corpo_q10 : String := "\n        diretorio_sigla_uf.nome AS sigla_uf_nome,\n        dados.id_municipio AS id_municipio,\n        diretorio_id_municipio.nome AS id_municipio_nome,\n        dados.id_cno AS id_cno,\n        dados.nome_empresarial as nome_empresarial,\n        dados.area as area,\n        dados.unidade_medida as unidade_medida,\n        dados.bairro as bairro,\n        dados.cep as cep,\n        dados.logradouro as logradouro,"

def corpo_q11 : String := "\n        dados.tipo_logradouro as tipo_logradouro,\n        dados.numero_logradouro as numero_logradouro,\n        dados.complemento as complemento,\n\n        dados.nome_responsavel as nome_responsavel,\n        dados.qualificacao_responsavel as qualificacao_responsavel,\n\n        -- Novas colunas dos vínculos\n        ve.qualificacao_contribuinte,\n\n        -- Novas colunas das áreas\n        ae.categoria,"

def corpo_q12 : String := "\n        ae.destinacao,\n        ae.tipo_obra,\n        ae.tipo_area,\n        ae.tipo_area_complementar,\n        ae.metragem_total\n\n    FROM `basedosdados.br_rf_cno.microdados` AS dados\n    LEFT JOIN (\n        SELECT DISTINCT sigla, nome\n        FROM `basedosdados.br_bd_diretorios_brasil.uf`\n    ) AS diretorio_sigla_uf\n        ON dados.sigla_uf = diretorio_sigla_uf.sigla\n    LEFT JOIN ("

def corpo_q13 : String := "\n        SELECT DISTINCT id_municipio, nome\n        FROM `basedosdados.br_bd_diretorios_brasil.municipio`\n    ) AS diretorio_id_municipio\n        ON dados.id_municipio = diretorio_id_municipio.id_municipio\n    LEFT JOIN vinculos_enriquecidos AS ve\n        ON dados.id_cno = ve.id_cno\n    LEFT JOIN areas_enriquecidas AS ae\n        ON dados.id_cno = ae.id_cno\n    "

/-- The fixed SQL template text of `montar_query`: everything the f-string of
src/app.py lines 134-279 produces before the `where_clause` interpolation
point, reproduced verbatim (it is the concatenation of the thirteen
newline-aligned segments above). -/
def corpo_query : String :=
  corpo_q1 ++ corpo_q2 ++ corpo_q3 ++ corpo_q4 ++ corpo_q5 ++ corpo_q6 ++
  corpo_q7 ++ corpo_q8 ++ corpo_q9 ++ corpo_q10 ++ corpo_q11 ++ corpo_q12 ++
  corpo_q13

/-- Embeds `montar_query` (src/app.py lines 101-282).  The returned string is
the f-string: fixed template text, then `where_clause`, then
`"\n    LIMIT "`, the decimal rendering of `limite_linhas`, and the final
newline-plus-indentation before the closing quotes.  The Python defaults
(`None` for every filter, `10_000` for `limite_linhas`) are kept. -/
def montar_query (uf_filtrada : Option String := none)
    (cidades_nomes : Option (List String) := none)
    (data_inicio_min : Option String := none)
    (data_inicio_max : Option String := none)
    (limite_linhas : Int := 10000) : String :=
  corpo_query
    ++ where_clause uf_filtrada cidades_nomes data_inicio_min data_inicio_max
    ++ "\n    LIMIT " ++ Int.repr limite_linhas ++ "\n    "

/-- Embeds src/app.py line 304: the UI maps the selectbox choice to
`uf_filtrada`, sending `"(Todas)"` to `None` and any other choice to itself. -/
def uf_filtrada_de (uf_escolhida : String) : Option String :=
  if uf_escolhida == "(Todas)" then none else some uf_escolhida

/-- The initial value of the row-limit widget (src/app.py line 353,
`st.number_input(..., value=100_000, ...)`). -/
def limite_linhas_valor_inicial : Int := 100000

/-- Outcome of one form submission (src/app.py lines 385-402): either the
blocking validation error for a missing billing project id, or the consulta
branch, carrying the SQL string it builds and sends to the warehouse (the
export artifacts are produced only inside this branch). -/
inductive AcaoExecucao where
  | erro_billing : AcaoExecucao
  | fluxo_consulta (sql : String) : AcaoExecucao
deriving DecidableEq

/-- Embeds the submission handler `if executar:` (src/app.py lines 385-402):
`if not billing_project_id:` reports the blocking error and nothing else
happens; otherwise the `else` branch builds the SQL with `montar_query` and
proceeds to query and export. -/
def executar_fluxo (billing_project_id : String) (uf_filtrada : Option String)
    (cidades_selecionadas : Option (List String))
    (data_inicio_min data_inicio_max : Option String)
    (limite_linhas : Int) : AcaoExecucao :=
  if billing_project_id == "" then AcaoExecucao.erro_billing
  else AcaoExecucao.fluxo_consulta
    (montar_query uf_filtrada cidades_selecionadas data_inicio_min
      data_inicio_max limite_linhas)

/-- Outcome of `listar_municipios_por_uf`: either a list returned locally,
with no client construction and no warehouse query, or a remote lookup,
carrying the SQL it issues. -/
inductive ResultadoMunicipios where
  | lista_local (nomes : List String) : ResultadoMunicipios
  | consulta_remota (sql : String) : ResultadoMunicipios
deriving DecidableEq

/-- Embeds `listar_municipios_por_uf` (src/app.py lines 66-82): when `uf` or
`billing_project_id` is falsy the function returns `[]` before any client is
built; otherwise it issues the `SELECT DISTINCT nome ...` lookup, whose
f-string is reproduced verbatim. -/
def listar_municipios_por_uf (uf : String) (billing_project_id : String) :
    ResultadoMunicipios :=
  if uf == "" || billing_project_id == "" then ResultadoMunicipios.lista_local []
  else ResultadoMunicipios.consulta_remota
    ("\n        SELECT DISTINCT nome\n        FROM `basedosdados.br_bd_diretorios_brasil.municipio`\n        WHERE sigla_uf = \x27"
      ++ uf ++ "\x27\n        ORDER BY nome\n    ")

/-- UTF-8 encoding of one character (RFC 3629), as used by Python
`str.encode`. -/
def charUtf8 (c : Char) : List Nat :=
  let n := c.toNat
  if n < 0x80 then [n]
  else if n < 0x800 then [0xC0 + n / 0x40, 0x80 + n % 0x40]
  else if n < 0x10000 then
    [0xE0 + n / 0x1000, 0x80 + n / 0x40 % 0x40, 0x80 + n % 0x40]
  else
    [0xF0 + n / 0x40000, 0x80 + n / 0x1000 % 0x40, 0x80 + n / 0x40 % 0x40,
     0x80 + n % 0x40]

/-- UTF-8 byte sequence of a string. -/
def utf8Bytes (s : String) : List Nat := s.data.flatMap charUtf8

/-- Embeds Python `s.encode("utf-8-sig")`: the UTF-8 bytes prefixed with the
byte-order mark `EF BB BF`. -/
def encode_utf8_sig (s : String) : List Nat := [0xEF, 0xBB, 0xBF] ++ utf8Bytes s

/-- Modelled behaviour of the external library call
`df.to_csv(index=False, sep=";")` for a table given as rows of string cells
(header row included): each row's cells joined by the separator, each line
terminated by a newline.  Only the separator plumbing matters for the claims
about src/app.py lines 432-435. -/
def to_csv_texto (linhas : List (List String)) (sep : String) : String :=
  String.join (linhas.map (fun linha => join_sep sep linha ++ "\n"))

/-- Embeds `csv_bytes = df.to_csv(index=False, sep=";", ...).encode("utf-8-sig")`
(src/app.py lines 432-435). -/
def csv_bytes (linhas : List (List String)) : List Nat :=
  encode_utf8_sig (to_csv_texto linhas ";")

/-- Number of (possibly overlapping) occurrences of the pattern `p` as a
contiguous substring of `s`, counted position by position. -/
def subCount (p : List Char) : List Char → Nat
  | [] => if p.isEmpty then 1 else 0
  | c :: t => (if p.isPrefixOf (c :: t) then 1 else 0) + subCount p t

/-- Occurrence count of one string inside another. -/
def subCountS (p s : String) : Nat := subCount p.data s.data

/-- The string `s` ends with the given text as a suffix. -/
def termina_com (s sufixo : String) : Prop := ∃ a : String, s = a ++ sufixo

/-- Inverse of quote doubling: collapses every pair of adjacent single quotes
back into one quote. -/
def colapsa : List Char → List Char
  | [] => []
  | [c] => [c]
  | c :: d :: t =>
    if c == aspa && d == aspa then aspa :: colapsa t
    else c :: colapsa (d :: t)

/-- Concatenation of a list of character lists (used to decompose the fixed
template into its segments). -/
def catList : List (List Char) → List Char
  | [] => []
  | x :: xs => x ++ catList xs

/-- Recognizes the date filter clauses among the generated filter strings
(both date clauses and only they extend `dados.data_inicio`). -/
def clausula_de_data (s : String) : Bool :=
  "dados.data_inicio".data.isPrefixOf s.data

/-- Recognizes the state-code equality clause among the generated filter
strings. -/
def clausula_de_uf (s : String) : Bool :=
  "dados.sigla_uf".data.isPrefixOf s.data

/-- Recognizes the city membership clause among the generated filter
strings. -/
def clausula_de_cidades (s : String) : Bool :=
  "diretorio_id_municipio.nome IN (".data.isPrefixOf s.data

/-! ## Basic facts about strings viewed as character lists -/

theorem data_append (a b : String) : (a ++ b).data = a.data ++ b.data := rfl

theorem string_ext {a b : String} (h : a.data = b.data) : a = b := by
  cases a
  cases b
  exact congrArg String.mk h

theorem str_append_assoc (a b c : String) : a ++ b ++ c = a ++ (b ++ c) :=
  string_ext (by simp only [data_append, List.append_assoc])

/-! ## Prefix recognition lemmas -/

theorem isPrefixOf_extend {p a : List Char} (b : List Char)
    (h : p.isPrefixOf a = true) : p.isPrefixOf (a ++ b) = true := by
  rw [List.isPrefixOf_iff_prefix] at h ⊢
  exact h.trans (List.prefix_append a b)

theorem take_of_isPrefixOf : ∀ (p s : List Char) (k : Nat),
    p.isPrefixOf s = true → k ≤ p.length → s.take k = p.take k := by
  intro p
  induction p with
  | nil =>
    intro s k _ hk
    have : k = 0 := Nat.le_zero.mp hk
    subst this
    simp
  | cons q qs ih =>
    intro s k hp hk
    cases s with
    | nil => simp [List.isPrefixOf] at hp
    | cons c t =>
      rw [List.isPrefixOf, Bool.and_eq_true, beq_iff_eq] at hp
      obtain ⟨hqc, hp2⟩ := hp
      subst hqc
      cases k with
      | zero => simp
      | succ k =>
        simp only [List.take_succ_cons, List.cons.injEq, true_and]
        exact ih t k hp2 (Nat.le_of_succ_le_succ hk)

theorem not_isPrefixOf_of_take {p s : List Char} (k : Nat) (hk : k ≤ p.length)
    (h : ¬ s.take k = p.take k) : p.isPrefixOf s = false := by
  cases hb : p.isPrefixOf s with
  | false => rfl
  | true => exact absurd (take_of_isPrefixOf p s k hb hk) h

theorem take_append_of_le : ∀ (k : Nat) (a b : List Char), k ≤ a.length →
    (a ++ b).take k = a.take k := by
  intro k
  induction k with
  | zero => simp
  | succ k ih =>
    intro a b hk
    cases a with
    | nil => simp at hk
    | cons c t =>
      simp only [List.cons_append, List.take_succ_cons, List.cons.injEq, true_and]
      exact ih t b (Nat.le_of_succ_le_succ hk)

/-! ## Classification of the generated filter clauses

Each generated clause starts with a fixed text; the three recognizers
`clausula_de_data`, `clausula_de_uf`, `clausula_de_cidades` accept exactly
the clauses of their own kind, whatever the interpolated values are. -/

theorem cdata_between (x y : String) :
    clausula_de_data ("dados.data_inicio BETWEEN DATE \x27" ++ x ++
      "\x27 AND DATE \x27" ++ y ++ "\x27") = true := by
  unfold clausula_de_data
  simp only [data_append, List.append_assoc]
  exact isPrefixOf_extend _ (by decide)

theorem cdata_ge (x : String) :
    clausula_de_data ("dados.data_inicio >= DATE \x27" ++ x ++ "\x27") = true := by
  unfold clausula_de_data
  simp only [data_append, List.append_assoc]
  exact isPrefixOf_extend _ (by decide)

theorem cdata_le (x : String) :
    clausula_de_data ("dados.data_inicio <= DATE \x27" ++ x ++ "\x27") = true := by
  unfold clausula_de_data
  simp only [data_append, List.append_assoc]
  exact isPrefixOf_extend _ (by decide)

theorem cdata_uf (x : String) :
    clausula_de_data ("dados.sigla_uf = \x27" ++ x ++ "\x27") = false := by
  unfold clausula_de_data
  simp only [data_append, List.append_assoc]
  refine not_isPrefixOf_of_take 7 (by decide) ?_
  rw [take_append_of_le 7 _ _ (by decide)]
  decide

theorem cdata_in (x : String) :
    clausula_de_data ("diretorio_id_municipio.nome IN (" ++ x ++ ")") = false := by
  unfold clausula_de_data
  simp only [data_append, List.append_assoc]
  refine not_isPrefixOf_of_take 2 (by decide) ?_
  rw [take_append_of_le 2 _ _ (by decide)]
  decide

theorem cuf_between (x y : String) :
    clausula_de_uf ("dados.data_inicio BETWEEN DATE \x27" ++ x ++
      "\x27 AND DATE \x27" ++ y ++ "\x27") = false := by
  unfold clausula_de_uf
  simp only [data_append, List.append_assoc]
  refine not_isPrefixOf_of_take 7 (by decide) ?_
  rw [take_append_of_le 7 _ _ (by decide)]
  decide

theorem cuf_ge (x : String) :
    clausula_de_uf ("dados.data_inicio >= DATE \x27" ++ x ++ "\x27") = false := by
  unfold clausula_de_uf
  simp only [data_append, List.append_assoc]
  refine not_isPrefixOf_of_take 7 (by decide) ?_
  rw [take_append_of_le 7 _ _ (by decide)]
  decide

theorem cuf_le (x : String) :
    clausula_de_uf ("dados.data_inicio <= DATE \x27" ++ x ++ "\x27") = false := by
  unfold clausula_de_uf
  simp only [data_append, List.append_assoc]
  refine not_isPrefixOf_of_take 7 (by decide) ?_
  rw [take_append_of_le 7 _ _ (by decide)]
  decide

theorem cuf_uf (x : String) :
    clausula_de_uf ("dados.sigla_uf = \x27" ++ x ++ "\x27") = true := by
  unfold clausula_de_uf
  simp only [data_append, List.append_assoc]
  exact isPrefixOf_extend _ (by decide)

theorem cuf_in (x : String) :
    clausula_de_uf ("diretorio_id_municipio.nome IN (" ++ x ++ ")") = false := by
  unfold clausula_de_uf
  simp only [data_append, List.append_assoc]
  refine not_isPrefixOf_of_take 2 (by decide) ?_
  rw [take_append_of_le 2 _ _ (by decide)]
  decide

theorem ccid_between (x y : String) :
    clausula_de_cidades ("dados.data_inicio BETWEEN DATE \x27" ++ x ++
      "\x27 AND DATE \x27" ++ y ++ "\x27") = false := by
  unfold clausula_de_cidades
  simp only [data_append, List.append_assoc]
  refine not_isPrefixOf_of_take 2 (by decide) ?_
  rw [take_append_of_le 2 _ _ (by decide)]
  decide

theorem ccid_ge (x : String) :
    clausula_de_cidades ("dados.data_inicio >= DATE \x27" ++ x ++ "\x27") = false := by
  unfold clausula_de_cidades
  simp only [data_append, List.append_assoc]
  refine not_isPrefixOf_of_take 2 (by decide) ?_
  rw [take_append_of_le 2 _ _ (by decide)]
  decide

theorem ccid_le (x : String) :
    clausula_de_cidades ("dados.data_inicio <= DATE \x27" ++ x ++ "\x27") = false := by
  unfold clausula_de_cidades
  simp only [data_append, List.append_assoc]
  refine not_isPrefixOf_of_take 2 (by decide) ?_
  rw [take_append_of_le 2 _ _ (by decide)]
  decide

theorem ccid_uf (x : String) :
    clausula_de_cidades ("dados.sigla_uf = \x27" ++ x ++ "\x27") = false := by
  unfold clausula_de_cidades
  simp only [data_append, List.append_assoc]
  refine not_isPrefixOf_of_take 2 (by decide) ?_
  rw [take_append_of_le 2 _ _ (by decide)]
  decide

theorem ccid_in (x : String) :
    clausula_de_cidades ("diretorio_id_municipio.nome IN (" ++ x ++ ")") = true := by
  unfold clausula_de_cidades
  simp only [data_append, List.append_assoc]
  exact isPrefixOf_extend _ (by decide)

/-! ## Claims about the filter list -/

/-- Claim C1: for every call to `montar_query`, when both `data_inicio_min`
and `data_inicio_max` are provided (non-empty) the filter list contains the
single date clause `dados.data_inicio BETWEEN DATE '<min>' AND DATE '<max>'`;
with only `data_inicio_min` it contains `dados.data_inicio >= DATE '<min>'`;
with only `data_inicio_max` it contains `dados.data_inicio <= DATE '<max>'`.
Stated via the recognizer `clausula_de_data`: filtering the whole clause list
for date clauses yields exactly the expected singleton (or nothing when no
bound is given). -/
theorem claim_C1 (uf_filtrada : Option String) (cidades_nomes : Option (List String))
    (data_inicio_min data_inicio_max : Option String) :
    (filtros uf_filtrada cidades_nomes data_inicio_min data_inicio_max).filter
        clausula_de_data =
      (if tvs data_inicio_min && tvs data_inicio_max then
        ["dados.data_inicio BETWEEN DATE \x27" ++ getS data_inicio_min ++
          "\x27 AND DATE \x27" ++ getS data_inicio_max ++ "\x27"]
      else if tvs data_inicio_min then
        ["dados.data_inicio >= DATE \x27" ++ getS data_inicio_min ++ "\x27"]
      else if tvs data_inicio_max then
        ["dados.data_inicio <= DATE \x27" ++ getS data_inicio_max ++ "\x27"]
      else []) := by
  unfold filtros filtro_data
  rw [List.filter_append, List.filter_append]
  split_ifs <;>
    simp [List.filter_cons, cdata_between, cdata_ge, cdata_le, cdata_uf, cdata_in]

/-- Claim C3: the state-code equality clause is in the filter list if and only
if `uf_filtrada` is truthy, and the city membership clause is in the filter
list if and only if `cidades_nomes` is a non-empty list; with `None` or an
empty list no `IN` clause appears.  Additionally, the UI maps the
`"(Todas)"` choice to `None`.  Stated via the recognizers, which pick out
exactly the clause of each kind. -/
theorem claim_C3 (uf_filtrada : Option String) (cidades_nomes : Option (List String))
    (data_inicio_min data_inicio_max : Option String) :
    ((filtros uf_filtrada cidades_nomes data_inicio_min data_inicio_max).filter
        clausula_de_uf =
      (if tvs uf_filtrada then
        ["dados.sigla_uf = \x27" ++ getS uf_filtrada ++ "\x27"] else []))
    ∧ ((filtros uf_filtrada cidades_nomes data_inicio_min data_inicio_max).filter
        clausula_de_cidades =
      (if tvl cidades_nomes then
        ["diretorio_id_municipio.nome IN (" ++ lista_in (getL cidades_nomes) ++ ")"]
      else []))
    ∧ uf_filtrada_de "(Todas)" = none := by
  refine ⟨?_, ?_, rfl⟩
  · unfold filtros filtro_data
    rw [List.filter_append, List.filter_append]
    split_ifs <;>
      simp [List.filter_cons, cuf_between, cuf_ge, cuf_le, cuf_uf, cuf_in]
  · unfold filtros filtro_data
    rw [List.filter_append, List.filter_append]
    split_ifs <;>
      simp [List.filter_cons, ccid_between, ccid_ge, ccid_le, ccid_uf, ccid_in]

/-- Claim C5: with only a state code (all other filters absent), the generated
WHERE clause consists of exactly one condition, the equality clause
`dados.sigla_uf = '<uf>'`, with nothing joined to it. -/
theorem claim_C5 (uf_filtrada : Option String) (h : tvs uf_filtrada = true) :
    filtros uf_filtrada none none none =
      ["dados.sigla_uf = \x27" ++ getS uf_filtrada ++ "\x27"]
    ∧ where_clause uf_filtrada none none none =
      "WHERE " ++ ("dados.sigla_uf = \x27" ++ getS uf_filtrada ++ "\x27") := by
  have hf : filtros uf_filtrada none none none =
      ["dados.sigla_uf = \x27" ++ getS uf_filtrada ++ "\x27"] := by
    unfold filtros filtro_data
    simp [h, show tvs none = false from rfl,
      show tvl (none : Option (List String)) = false from rfl]
  refine ⟨hf, ?_⟩
  unfold where_clause
  rw [hf]
  rfl

/-- Witness for claim C5 at the concrete state code `PR`. -/
theorem claim_C5_witness :
    tvs (some "PR") = true ∧
    (filtros (some "PR") none none none =
        ["dados.sigla_uf = \x27" ++ getS (some "PR") ++ "\x27"]
      ∧ where_clause (some "PR") none none none =
        "WHERE " ++ ("dados.sigla_uf = \x27" ++ getS (some "PR") ++ "\x27")) :=
  ⟨by decide, claim_C5 (some "PR") (by decide)⟩

/-! ## Quote escaping: doubling and its inverse -/

theorem escapa_aspas_data (c : String) :
    (escapa_aspas c).data = c.data.flatMap dupAspa := rfl

theorem count_dup : ∀ l : List Char,
    (l.flatMap dupAspa).count aspa = 2 * l.count aspa := by
  intro l
  induction l with
  | nil => rfl
  | cons ch t ih =>
    by_cases hc : ch = aspa
    · subst hc
      simp only [List.flatMap_cons, dupAspa, if_pos rfl, List.count_append,
        List.count_cons, ih]
      simp [Nat.mul_add]
      omega
    · simp only [List.flatMap_cons, dupAspa, if_neg hc, List.count_append,
        List.count_cons, ih]
      have : (ch == aspa) = false := by simp [hc]
      simp [this]

theorem flatMap_dupAspa_ne_nil (d : Char) (u : List Char) :
    (d :: u).flatMap dupAspa ≠ [] := by
  by_cases hd : d = aspa <;> simp [dupAspa, hd]

theorem colapsa_dup : ∀ l : List Char, colapsa (l.flatMap dupAspa) = l := by
  intro l
  induction l with
  | nil => rfl
  | cons ch t ih =>
    by_cases hc : ch = aspa
    · subst hc
      have hstep : (aspa :: t).flatMap dupAspa =
          aspa :: aspa :: t.flatMap dupAspa := by simp [dupAspa]
      rw [hstep]
      show (if aspa == aspa && aspa == aspa then
          aspa :: colapsa (t.flatMap dupAspa)
        else aspa :: colapsa (aspa :: t.flatMap dupAspa)) = aspa :: t
      simp [ih]
    · have hstep : (ch :: t).flatMap dupAspa = ch :: t.flatMap dupAspa := by
        simp [dupAspa, hc]
      rw [hstep]
      cases ht : t.flatMap dupAspa with
      | nil =>
        have ht0 : t = [] := by
          cases t with
          | nil => rfl
          | cons d u => exact absurd ht (flatMap_dupAspa_ne_nil d u)
        subst ht0
        rfl
      | cons e r =>
        have hcond : (ch == aspa && e == aspa) = false := by simp [hc]
        show (if ch == aspa && e == aspa then aspa :: colapsa r
          else ch :: colapsa (e :: r)) = ch :: t
        rw [if_neg (by simp [hcond])]
        rw [← ht, ih]

theorem map_count_escapa (l : List String) :
    (l.map escapa_aspas).map (fun n => n.data.count aspa) =
      l.map (fun c => 2 * c.data.count aspa) := by
  induction l with
  | nil => rfl
  | cons c t ih =>
    simp only [List.map_cons, List.cons.injEq]
    exact ⟨count_dup c.data, ih⟩

theorem map_colapsa_escapa (l : List String) :
    (l.map escapa_aspas).map (fun n => colapsa n.data) = l.map String.data := by
  induction l with
  | nil => rfl
  | cons c t ih =>
    simp only [List.map_cons, List.cons.injEq]
    exact ⟨colapsa_dup c.data, ih⟩

/-- Claim C2: for a non-empty city list, the membership clause added to the
filter list carries the IN-list built from the escaped names: the literal
emitted for a city `c` is `'<c with each quote doubled>'`, the doubling being
witnessed by the quote-count equation and by the fact that collapsing
quote pairs recovers each original name. -/
theorem claim_C2 (cidades : List String) (uf_filtrada : Option String)
    (data_inicio_min data_inicio_max : Option String) (h : cidades ≠ []) :
    ("diretorio_id_municipio.nome IN (" ++ lista_in cidades ++ ")") ∈
        filtros uf_filtrada (some cidades) data_inicio_min data_inicio_max
    ∧ lista_in cidades =
        join_sep ", " (cidades.map (fun c => "\x27" ++ escapa_aspas c ++ "\x27"))
    ∧ (nomes_escapados cidades).map (fun n => n.data.count aspa) =
        cidades.map (fun c => 2 * c.data.count aspa)
    ∧ (nomes_escapados cidades).map (fun n => colapsa n.data) =
        cidades.map String.data := by
  refine ⟨?_, ?_, ?_, ?_⟩
  · have htv : tvl (some cidades) = true := by
      simp [tvl, h]
    unfold filtros
    refine List.mem_append_of_mem_right _ ?_
    rw [htv]
    simp [getL]
  · unfold lista_in nomes_escapados
    rw [List.map_map]
    rfl
  · unfold nomes_escapados
    exact map_count_escapa cidades
  · unfold nomes_escapados
    exact map_colapsa_escapa cidades

/-- Witness for claim C2 on the concrete city list `["Herval d'Oeste"]`. -/
theorem claim_C2_witness :
    (["Herval d\x27Oeste"] : List String) ≠ [] ∧
    (("diretorio_id_municipio.nome IN (" ++ lista_in ["Herval d\x27Oeste"] ++ ")") ∈
        filtros none (some ["Herval d\x27Oeste"]) none none
      ∧ lista_in ["Herval d\x27Oeste"] =
          join_sep ", " ((["Herval d\x27Oeste"] : List String).map
            (fun c => "\x27" ++ escapa_aspas c ++ "\x27"))
      ∧ (nomes_escapados ["Herval d\x27Oeste"]).map (fun n => n.data.count aspa) =
          (["Herval d\x27Oeste"] : List String).map (fun c => 2 * c.data.count aspa)
      ∧ (nomes_escapados ["Herval d\x27Oeste"]).map (fun n => colapsa n.data) =
          (["Herval d\x27Oeste"] : List String).map String.data) :=
  ⟨by decide, claim_C2 ["Herval d\x27Oeste"] none none none (by decide)⟩

/-! ## Claims about the submission flow and the exports -/

/-- Claim C7: submitting with an empty billing project id reports the
blocking validation error and the consulta branch (query construction,
warehouse call, export) is not entered for any SQL string. -/
theorem claim_C7 (uf_filtrada : Option String) (cidades : Option (List String))
    (data_inicio_min data_inicio_max : Option String) (limite_linhas : Int) :
    executar_fluxo "" uf_filtrada cidades data_inicio_min data_inicio_max
        limite_linhas = AcaoExecucao.erro_billing
    ∧ ∀ sql : String,
        executar_fluxo "" uf_filtrada cidades data_inicio_min data_inicio_max
          limite_linhas ≠ AcaoExecucao.fluxo_consulta sql := by
  refine ⟨rfl, ?_⟩
  intro sql hml
  simp [executar_fluxo] at hml

/-- Claim C8: the delimited-text export built from a query result uses `;` as
the field separator and its bytes are UTF-8 prefixed with the byte-order mark
`EF BB BF`. -/
theorem claim_C8 (linhas : List (List String)) :
    (csv_bytes linhas).take 3 = [0xEF, 0xBB, 0xBF]
    ∧ csv_bytes linhas = [0xEF, 0xBB, 0xBF] ++ utf8Bytes (to_csv_texto linhas ";")
    ∧ to_csv_texto linhas ";" =
        String.join (linhas.map (fun linha => join_sep ";" linha ++ "\n")) := by
  refine ⟨?_, rfl, rfl⟩
  simp [csv_bytes, encode_utf8_sig]

/-- Claim C10: the city lookup returns the empty list with no client and no
warehouse query exactly when `uf` or `billing_project_id` is empty, and the
remote lookup is attempted exactly when both are non-empty. -/
theorem claim_C10 (uf billing_project_id : String) :
    (listar_municipios_por_uf uf billing_project_id =
        ResultadoMunicipios.lista_local []
      ↔ (uf = "" ∨ billing_project_id = ""))
    ∧ ((∃ sql, listar_municipios_por_uf uf billing_project_id =
          ResultadoMunicipios.consulta_remota sql)
      ↔ (uf ≠ "" ∧ billing_project_id ≠ "")) := by
  unfold listar_municipios_por_uf
  by_cases h1 : uf = "" <;> by_cases h2 : billing_project_id = "" <;>
    simp [h1, h2]

/-! ## Counting substring occurrences: basic lemmas -/

theorem subCount_nil {p : List Char} (hp : p ≠ []) : subCount p [] = 0 := by
  cases p with
  | nil => exact absurd rfl hp
  | cons q qs => rfl

theorem isPrefixOf_cons_false {p : List Char} (hp : p ≠ []) {c : Char} (hc : c ∉ p)
    (b : List Char) : p.isPrefixOf (c :: b) = false := by
  cases p with
  | nil => exact absurd rfl hp
  | cons q qs =>
    have hqc : (q == c) = false := by
      simp only [beq_eq_false_iff_ne, ne_eq]
      intro h
      exact hc (by rw [h]; exact List.mem_cons_self c qs)
    rw [List.isPrefixOf, hqc, Bool.false_and]

theorem isPrefixOf_append_cons {c : Char} :
    ∀ (x p b : List Char), c ∉ p →
      p.isPrefixOf (x ++ c :: b) = p.isPrefixOf x := by
  intro x
  induction x with
  | nil =>
    intro p b hc
    cases p with
    | nil => rfl
    | cons q qs =>
      have hqc : (q == c) = false := by
        simp only [beq_eq_false_iff_ne, ne_eq]
        intro h
        exact hc (by rw [h]; exact List.mem_cons_self c qs)
      show ((q == c) && qs.isPrefixOf b) = List.isPrefixOf (q :: qs) []
      rw [hqc, Bool.false_and]
      rfl
  | cons d t ih =>
    intro p b hc
    cases p with
    | nil => rfl
    | cons q qs =>
      show ((q == d) && qs.isPrefixOf (t ++ c :: b)) = ((q == d) && qs.isPrefixOf t)
      rw [ih qs b (fun h => hc (List.mem_cons_of_mem q h))]

theorem subCount_append_barrier {p : List Char} (hp : p ≠ []) {c : Char} (hc : c ∉ p) :
    ∀ (a b : List Char), subCount p (a ++ c :: b) = subCount p a + subCount p (c :: b) := by
  intro a
  induction a with
  | nil =>
    intro b
    rw [List.nil_append, subCount_nil hp, Nat.zero_add]
  | cons d t ih =>
    intro b
    show subCount p (d :: (t ++ c :: b)) = subCount p (d :: t) + subCount p (c :: b)
    have hpref : p.isPrefixOf (d :: (t ++ c :: b)) = p.isPrefixOf (d :: t) :=
      isPrefixOf_append_cons (d :: t) p b hc
    simp only [subCount, hpref, ih b]
    omega

theorem subCount_cons_skip {p : List Char} (hp : p ≠ []) {c : Char} (hc : c ∉ p)
    (b : List Char) : subCount p (c :: b) = subCount p b := by
  simp only [subCount, isPrefixOf_cons_false hp hc]
  simp

theorem subCount_append_of_head {p : List Char} (hp : p ≠ []) {c : Char} (hc : c ∉ p)
    (a b : List Char) (hb : b.head? = some c) :
    subCount p (a ++ b) = subCount p a + subCount p b := by
  cases b with
  | nil => simp at hb
  | cons d t =>
    have hd : d = c := by simpa using hb
    subst hd
    exact subCount_append_barrier hp hc a t

theorem subCount_zero_of_head_notMem {q : Char} {qs : List Char} :
    ∀ s : List Char, (∀ c ∈ s, c ≠ q) → subCount (q :: qs) s = 0 := by
  intro s
  induction s with
  | nil => intro _; rfl
  | cons d t ih =>
    intro h
    have hd : (q == d) = false := by
      simp only [beq_eq_false_iff_ne, ne_eq]
      intro hqd
      exact h d (List.mem_cons_self d t) hqd.symm
    have hpref : (q :: qs).isPrefixOf (d :: t) = false := by
      rw [List.isPrefixOf, hd, Bool.false_and]
    simp only [subCount, hpref]
    simp only [Bool.false_eq_true, if_false, Nat.zero_add]
    exact ih (fun c hcl => h c (List.mem_cons_of_mem d hcl))

theorem subCount_catList {p : List Char} (hp : p ≠ []) {nl : Char} (hnl : nl ∉ p) :
    ∀ l : List (List Char), (∀ x ∈ l, x.head? = some nl) →
      subCount p (catList l) = (l.map (subCount p)).sum := by
  intro l
  induction l with
  | nil =>
    intro _
    simpa using subCount_nil hp
  | cons x xs ih =>
    intro h
    show subCount p (x ++ catList xs) = _
    cases xs with
    | nil => simp [catList, subCount_nil hp]
    | cons y ys =>
      have hhead : (catList (y :: ys)).head? = some nl := by
        show (y ++ catList ys).head? = some nl
        rw [List.head?_append, h y (by simp)]
        rfl
      rw [subCount_append_of_head hp hnl x (catList (y :: ys)) hhead]
      rw [ih (fun z hz => h z (List.mem_cons_of_mem x hz))]
      simp

/-! ## The fixed template, segment by segment -/

theorem corpo_query_data :
    corpo_query.data = catList [corpo_q1.data, corpo_q2.data, corpo_q3.data,
      corpo_q4.data, corpo_q5.data, corpo_q6.data, corpo_q7.data, corpo_q8.data,
      corpo_q9.data, corpo_q10.data, corpo_q11.data, corpo_q12.data,
      corpo_q13.data] := by
  simp only [corpo_query, data_append, catList, List.append_assoc, List.append_nil]

theorem corpo_chunk_heads :
    ∀ x ∈ [corpo_q1.data, corpo_q2.data, corpo_q3.data, corpo_q4.data,
      corpo_q5.data, corpo_q6.data, corpo_q7.data, corpo_q8.data, corpo_q9.data,
      corpo_q10.data, corpo_q11.data, corpo_q12.data, corpo_q13.data],
      x.head? = some '\n' := by
  intro x hx
  simp only [List.mem_cons, List.not_mem_nil, or_false] at hx
  rcases hx with rfl | rfl | rfl | rfl | rfl | rfl | rfl | rfl | rfl | rfl | rfl
    | rfl | rfl <;> rfl

/-! ## The decimal rendering of an integer contains no letter -/

theorem digitChar_ne_L (m : Nat) : Nat.digitChar m ≠ 'L' := by
  by_cases h : m < 16
  · interval_cases m <;> decide
  · have hne : ∀ k : Nat, k < 16 → m ≠ k := by omega
    unfold Nat.digitChar
    rw [if_neg (hne 0 (by norm_num)), if_neg (hne 1 (by norm_num)),
      if_neg (hne 2 (by norm_num)), if_neg (hne 3 (by norm_num)),
      if_neg (hne 4 (by norm_num)), if_neg (hne 5 (by norm_num)),
      if_neg (hne 6 (by norm_num)), if_neg (hne 7 (by norm_num)),
      if_neg (hne 8 (by norm_num)), if_neg (hne 9 (by norm_num)),
      if_neg (hne 10 (by norm_num)), if_neg (hne 11 (by norm_num)),
      if_neg (hne 12 (by norm_num)), if_neg (hne 13 (by norm_num)),
      if_neg (hne 14 (by norm_num)), if_neg (hne 15 (by norm_num))]
    decide

theorem toDigitsCore_ne_L :
    ∀ (fuel n : Nat) (ds : List Char), (∀ c ∈ ds, c ≠ 'L') →
      ∀ c ∈ Nat.toDigitsCore 10 fuel n ds, c ≠ 'L' := by
  intro fuel
  induction fuel with
  | zero =>
    intro n ds h c hc
    exact h c hc
  | succ fuel ih =>
    intro n ds h c hc
    simp only [Nat.toDigitsCore] at hc
    by_cases h0 : n / 10 = 0
    · rw [if_pos h0] at hc
      rcases List.mem_cons.mp hc with rfl | hmem
      · exact digitChar_ne_L _
      · exact h c hmem
    · rw [if_neg h0] at hc
      refine ih (n / 10) (Nat.digitChar (n % 10) :: ds) ?_ c hc
      intro d hd
      rcases List.mem_cons.mp hd with rfl | hmem
      · exact digitChar_ne_L _
      · exact h d hmem

theorem repr_ne_L : ∀ (n : Int), ∀ c ∈ (Int.repr n).data, c ≠ 'L' := by
  intro n
  cases n with
  | ofNat m =>
    intro c hc
    have hdata : (Int.repr (Int.ofNat m)).data = Nat.toDigits 10 m := rfl
    rw [hdata] at hc
    exact toDigitsCore_ne_L (m + 1) m []
      (fun d hd => absurd hd (List.not_mem_nil d)) c hc
  | negSucc m =>
    intro c hc
    have hdata : (Int.repr (Int.negSucc m)).data =
        '-' :: Nat.toDigits 10 (m + 1) := rfl
    rw [hdata] at hc
    rcases List.mem_cons.mp hc with rfl | hmem
    · decide
    · exact toDigitsCore_ne_L (m + 2) (m + 1) []
        (fun d hd => absurd hd (List.not_mem_nil d)) c hmem

theorem subCount_repr_LIMIT (n : Int) :
    subCount "LIMIT".data (Int.repr n).data = 0 := by
  have hL : ("LIMIT".data : List Char) = 'L' :: "IMIT".data := rfl
  rw [hL]
  exact subCount_zero_of_head_notMem _ (repr_ne_L n)

/-! ## Quote doubling cannot create an occurrence of a quote-free pattern -/

theorem isPrefixOf_flatMap_dup :
    ∀ (l p : List Char), aspa ∉ p →
      p.isPrefixOf (l.flatMap dupAspa) = true → p.isPrefixOf l = true := by
  intro l
  induction l with
  | nil =>
    intro p hq hpre
    simpa using hpre
  | cons c t ih =>
    intro p hq hpre
    by_cases hc : c = aspa
    · subst hc
      cases p with
      | nil => rfl
      | cons q qs =>
        exfalso
        have hstep : (aspa :: t).flatMap dupAspa =
            aspa :: aspa :: t.flatMap dupAspa := by simp [dupAspa]
        rw [hstep, List.isPrefixOf, Bool.and_eq_true, beq_iff_eq] at hpre
        obtain ⟨hq1, _⟩ := hpre
        subst hq1
        exact hq (List.mem_cons_self _ _)
    · cases p with
      | nil => rfl
      | cons q qs =>
        have hstep : (c :: t).flatMap dupAspa = c :: t.flatMap dupAspa := by
          simp [dupAspa, hc]
        rw [hstep] at hpre
        rw [List.isPrefixOf, Bool.and_eq_true] at hpre ⊢
        exact ⟨hpre.1, ih qs (fun hm => hq (List.mem_cons_of_mem q hm)) hpre.2⟩

theorem subCount_flatMap_dup :
    ∀ l : List Char, subCount "LIMIT".data l = 0 →
      subCount "LIMIT".data (l.flatMap dupAspa) = 0 := by
  have hp : ("LIMIT".data : List Char) ≠ [] := by decide
  have hq : aspa ∉ "LIMIT".data := by decide
  intro l
  induction l with
  | nil =>
    intro _
    rfl
  | cons c t ih =>
    intro h
    rw [subCount] at h
    have h2 : subCount "LIMIT".data t = 0 := by omega
    have h1 : "LIMIT".data.isPrefixOf (c :: t) = false := by
      cases hb : "LIMIT".data.isPrefixOf (c :: t) with
      | false => rfl
      | true => rw [hb] at h; simp at h
    by_cases hc : c = aspa
    · subst hc
      have hstep : (aspa :: t).flatMap dupAspa =
          aspa :: aspa :: t.flatMap dupAspa := by simp [dupAspa]
      rw [hstep, subCount_cons_skip hp hq, subCount_cons_skip hp hq]
      exact ih h2
    · have hstep : (c :: t).flatMap dupAspa = c :: t.flatMap dupAspa := by
        simp [dupAspa, hc]
      rw [hstep, subCount]
      have hpref : "LIMIT".data.isPrefixOf (c :: t.flatMap dupAspa) = false := by
        cases hb : "LIMIT".data.isPrefixOf (c :: t.flatMap dupAspa) with
        | false => rfl
        | true =>
          exfalso
          rw [← hstep] at hb
          have hgood := isPrefixOf_flatMap_dup (c :: t) "LIMIT".data hq hb
          rw [h1] at hgood
          exact Bool.false_ne_true hgood
      rw [hpref]
      simp only [Bool.false_eq_true, if_false, Nat.zero_add]
      exact ih h2

/-! ## No occurrence of the LIMIT marker inside the joined filter clauses -/

theorem subCount_join_barrier {p : List Char} (hp : p ≠ []) (sep : String)
    {c1 c2 : Char} (hc1 : c1 ∉ p) (hc2 : c2 ∉ p)
    (hsep : subCount p sep.data = 0) (hsh : sep.data.head? = some c1) :
    ∀ l : List String, l ≠ [] →
      (∀ f ∈ l, subCount p f.data = 0 ∧ f.data.head? = some c2) →
      subCount p (join_sep sep l).data = 0 ∧
        (join_sep sep l).data.head? = some c2 := by
  intro l
  induction l with
  | nil =>
    intro h
    exact absurd rfl h
  | cons a t ih =>
    intro _ h
    cases t with
    | nil => exact h a (by simp)
    | cons b u =>
      have hrest := ih (by simp) (fun f hf => h f (List.mem_cons_of_mem a hf))
      have hj : join_sep sep (a :: b :: u) = a ++ sep ++ join_sep sep (b :: u) := rfl
      have ha := h a (List.mem_cons_self a _)
      rw [hj, data_append, data_append, List.append_assoc]
      constructor
      · have hhead1 : (sep.data ++ (join_sep sep (b :: u)).data).head? = some c1 := by
          rw [List.head?_append, hsh]
          rfl
        rw [subCount_append_of_head hp hc1 _ _ hhead1]
        rw [subCount_append_of_head hp hc2 _ _ hrest.2]
        rw [ha.1, hsep, hrest.1]
      · rw [List.head?_append, ha.2]
        rfl

/-! ## Peeling characters that cannot start a match -/

theorem subCount_cons_ne {q : Char} {qs : List Char} {c : Char} (b : List Char)
    (hc : (q == c) = false) :
    subCount (q :: qs) (c :: b) = subCount (q :: qs) b := by
  have hpref : (q :: qs).isPrefixOf (c :: b) = false := by
    rw [List.isPrefixOf, hc, Bool.false_and]
  simp only [subCount, hpref]
  simp

theorem subCount_LIMIT_marker (rest : List Char) :
    subCount (['L', 'I', 'M', 'I', 'T'] : List Char)
        ('L' :: 'I' :: 'M' :: 'I' :: 'T' :: rest) =
      1 + subCount (['L', 'I', 'M', 'I', 'T'] : List Char) rest := by
  have hpref : (['L', 'I', 'M', 'I', 'T'] : List Char).isPrefixOf
      ('L' :: 'I' :: 'M' :: 'I' :: 'T' :: rest) = true := by
    simp [List.isPrefixOf]
  rw [subCount, hpref]
  rw [subCount_cons_ne _ (by decide), subCount_cons_ne _ (by decide),
    subCount_cons_ne _ (by decide), subCount_cons_ne _ (by decide)]
  simp

/-! ## No LIMIT occurrence inside any generated filter clause -/

theorem subCount_clause_between (mi ma : String)
    (h1 : subCount "LIMIT".data mi.data = 0)
    (h2 : subCount "LIMIT".data ma.data = 0) :
    subCount "LIMIT".data ("dados.data_inicio BETWEEN DATE \x27" ++ mi ++
      "\x27 AND DATE \x27" ++ ma ++ "\x27").data = 0 := by
  have hp : ((['L', 'I', 'M', 'I', 'T'] : List Char)) ≠ [] := by decide
  have hq : ('\x27' : Char) ∉ (['L', 'I', 'M', 'I', 'T'] : List Char) := by decide
  have h1' : subCount (['L', 'I', 'M', 'I', 'T'] : List Char) mi.data = 0 := h1
  have h2' : subCount (['L', 'I', 'M', 'I', 'T'] : List Char) ma.data = 0 := h2
  simp only [data_append, List.append_assoc, List.cons_append,
    List.singleton_append, List.nil_append]
  repeat rw [subCount_cons_ne _ (by decide)]
  rw [subCount_append_barrier hp hq]
  repeat rw [subCount_cons_ne _ (by decide)]
  rw [subCount_append_barrier hp hq]
  repeat rw [subCount_cons_ne _ (by decide)]
  rw [subCount_nil hp, h1', h2']

theorem subCount_clause_ge (mi : String)
    (h1 : subCount "LIMIT".data mi.data = 0) :
    subCount "LIMIT".data
      ("dados.data_inicio >= DATE \x27" ++ mi ++ "\x27").data = 0 := by
  have hp : ((['L', 'I', 'M', 'I', 'T'] : List Char)) ≠ [] := by decide
  have hq : ('\x27' : Char) ∉ (['L', 'I', 'M', 'I', 'T'] : List Char) := by decide
  have h1' : subCount (['L', 'I', 'M', 'I', 'T'] : List Char) mi.data = 0 := h1
  simp only [data_append, List.append_assoc, List.cons_append,
    List.singleton_append, List.nil_append]
  repeat rw [subCount_cons_ne _ (by decide)]
  rw [subCount_append_barrier hp hq]
  repeat rw [subCount_cons_ne _ (by decide)]
  rw [subCount_nil hp, h1']

theorem subCount_clause_le (ma : String)
    (h1 : subCount "LIMIT".data ma.data = 0) :
    subCount "LIMIT".data
      ("dados.data_inicio <= DATE \x27" ++ ma ++ "\x27").data = 0 := by
  have hp : ((['L', 'I', 'M', 'I', 'T'] : List Char)) ≠ [] := by decide
  have hq : ('\x27' : Char) ∉ (['L', 'I', 'M', 'I', 'T'] : List Char) := by decide
  have h1' : subCount (['L', 'I', 'M', 'I', 'T'] : List Char) ma.data = 0 := h1
  simp only [data_append, List.append_assoc, List.cons_append,
    List.singleton_append, List.nil_append]
  repeat rw [subCount_cons_ne _ (by decide)]
  rw [subCount_append_barrier hp hq]
  repeat rw [subCount_cons_ne _ (by decide)]
  rw [subCount_nil hp, h1']

theorem subCount_clause_uf (x : String)
    (h1 : subCount "LIMIT".data x.data = 0) :
    subCount "LIMIT".data ("dados.sigla_uf = \x27" ++ x ++ "\x27").data = 0 := by
  have hp : ((['L', 'I', 'M', 'I', 'T'] : List Char)) ≠ [] := by decide
  have hq : ('\x27' : Char) ∉ (['L', 'I', 'M', 'I', 'T'] : List Char) := by decide
  have h1' : subCount (['L', 'I', 'M', 'I', 'T'] : List Char) x.data = 0 := h1
  simp only [data_append, List.append_assoc, List.cons_append,
    List.singleton_append, List.nil_append]
  repeat rw [subCount_cons_ne _ (by decide)]
  rw [subCount_append_barrier hp hq]
  repeat rw [subCount_cons_ne _ (by decide)]
  rw [subCount_nil hp, h1']

theorem subCount_clause_in (cs : List String) (hne : cs ≠ [])
    (hcs : ∀ c ∈ cs, subCount "LIMIT".data c.data = 0) :
    subCount "LIMIT".data
      ("diretorio_id_municipio.nome IN (" ++ lista_in cs ++ ")").data = 0 := by
  have hp : ("LIMIT".data : List Char) ≠ [] := by decide
  have hp' : ((['L', 'I', 'M', 'I', 'T'] : List Char)) ≠ [] := by decide
  have hq : aspa ∉ "LIMIT".data := by decide
  have hq' : ('\x27' : Char) ∉ (['L', 'I', 'M', 'I', 'T'] : List Char) := by decide
  have hpar : (')' : Char) ∉ (['L', 'I', 'M', 'I', 'T'] : List Char) := by decide
  have hvirg : (',' : Char) ∉ "LIMIT".data := by decide
  have helems : ∀ f ∈ (nomes_escapados cs).map (fun n => "\x27" ++ n ++ "\x27"),
      subCount "LIMIT".data f.data = 0 ∧ f.data.head? = some aspa := by
    intro f hf
    rcases List.mem_map.mp hf with ⟨n, hn, rfl⟩
    rcases List.mem_map.mp hn with ⟨c, hc, rfl⟩
    constructor
    · have hesc : subCount (['L', 'I', 'M', 'I', 'T'] : List Char)
          (escapa_aspas c).data = 0 := by
        rw [escapa_aspas_data]
        exact subCount_flatMap_dup c.data (hcs c hc)
      show subCount (['L', 'I', 'M', 'I', 'T'] : List Char) _ = 0
      simp only [data_append, List.append_assoc, List.cons_append,
        List.singleton_append, List.nil_append]
      repeat rw [subCount_cons_ne _ (by decide)]
      rw [subCount_append_barrier hp' hq']
      repeat rw [subCount_cons_ne _ (by decide)]
      rw [subCount_nil hp', hesc]
    · simp only [data_append]
      rfl
  have hmapne : (nomes_escapados cs).map (fun n => "\x27" ++ n ++ "\x27") ≠ [] := by
    simp [nomes_escapados, hne]
  have hjoin := subCount_join_barrier hp ", " hvirg hq (by decide) (by rfl) _
    hmapne helems
  have hj1 : subCount (['L', 'I', 'M', 'I', 'T'] : List Char)
      (lista_in cs).data = 0 := hjoin.1
  show subCount (['L', 'I', 'M', 'I', 'T'] : List Char) _ = 0
  simp only [data_append, List.append_assoc, List.cons_append,
    List.singleton_append, List.nil_append]
  repeat rw [subCount_cons_ne _ (by decide)]
  rw [subCount_append_barrier hp' hpar]
  repeat rw [subCount_cons_ne _ (by decide)]
  rw [subCount_nil hp', hj1]

/-! ## Every generated filter clause is LIMIT-free and starts with `d` -/

theorem subCount_filtros_LIMIT (uf_filtrada : Option String)
    (cidades_nomes : Option (List String))
    (data_inicio_min data_inicio_max : Option String)
    (h1 : subCount "LIMIT".data (getS uf_filtrada).data = 0)
    (h2 : subCount "LIMIT".data (getS data_inicio_min).data = 0)
    (h3 : subCount "LIMIT".data (getS data_inicio_max).data = 0)
    (h4 : ∀ c ∈ getL cidades_nomes, subCount "LIMIT".data c.data = 0) :
    ∀ f ∈ filtros uf_filtrada cidades_nomes data_inicio_min data_inicio_max,
      subCount "LIMIT".data f.data = 0 ∧ f.data.head? = some 'd' := by
  intro f hf
  unfold filtros at hf
  rcases List.mem_append.mp hf with hf1 | hfc
  · rcases List.mem_append.mp hf1 with hfd | hfu
    · unfold filtro_data at hfd
      split_ifs at hfd
      · rw [List.mem_singleton] at hfd
        subst hfd
        refine ⟨subCount_clause_between _ _ h2 h3, ?_⟩
        simp only [data_append, List.append_assoc]
        rfl
      · rw [List.mem_singleton] at hfd
        subst hfd
        refine ⟨subCount_clause_ge _ h2, ?_⟩
        simp only [data_append, List.append_assoc]
        rfl
      · rw [List.mem_singleton] at hfd
        subst hfd
        refine ⟨subCount_clause_le _ h3, ?_⟩
        simp only [data_append, List.append_assoc]
        rfl
      · exact absurd hfd (List.not_mem_nil f)
    · split_ifs at hfu
      · rw [List.mem_singleton] at hfu
        subst hfu
        refine ⟨subCount_clause_uf _ h1, ?_⟩
        simp only [data_append, List.append_assoc]
        rfl
      · exact absurd hfu (List.not_mem_nil f)
  · split_ifs at hfc with htvl
    · rw [List.mem_singleton] at hfc
      subst hfc
      have hne : getL cidades_nomes ≠ [] := by
        cases cidades_nomes with
        | none => simp [tvl] at htvl
        | some l =>
          cases l with
          | nil => simp [tvl] at htvl
          | cons a t => simp [getL]
      refine ⟨subCount_clause_in _ hne h4, ?_⟩
      simp only [data_append, List.append_assoc]
      rfl
    · exact absurd hfc (List.not_mem_nil f)

/-! ## Occurrence counts over the fixed template -/

set_option maxRecDepth 100000 in
theorem subCount_corpo_LIMIT : subCount "LIMIT".data corpo_query.data = 0 := by
  rw [corpo_query_data,
    @subCount_catList "LIMIT".data (by decide) '\n' (by decide) _ corpo_chunk_heads]
  have c1 : subCount "LIMIT".data corpo_q1.data = 0 := by decide
  have c2 : subCount "LIMIT".data corpo_q2.data = 0 := by decide
  have c3 : subCount "LIMIT".data corpo_q3.data = 0 := by decide
  have c4 : subCount "LIMIT".data corpo_q4.data = 0 := by decide
  have c5 : subCount "LIMIT".data corpo_q5.data = 0 := by decide
  have c6 : subCount "LIMIT".data corpo_q6.data = 0 := by decide
  have c7 : subCount "LIMIT".data corpo_q7.data = 0 := by decide
  have c8 : subCount "LIMIT".data corpo_q8.data = 0 := by decide
  have c9 : subCount "LIMIT".data corpo_q9.data = 0 := by decide
  have c10 : subCount "LIMIT".data corpo_q10.data = 0 := by decide
  have c11 : subCount "LIMIT".data corpo_q11.data = 0 := by decide
  have c12 : subCount "LIMIT".data corpo_q12.data = 0 := by decide
  have c13 : subCount "LIMIT".data corpo_q13.data = 0 := by decide
  simp only [List.map_cons, List.map_nil, List.sum_cons, List.sum_nil]
  rw [c1, c2, c3, c4, c5, c6, c7, c8, c9, c10, c11, c12, c13]
  norm_num

set_option maxRecDepth 100000 in
theorem subCount_corpo_WHERE : subCount "WHERE".data corpo_query.data = 6 := by
  rw [corpo_query_data,
    @subCount_catList "WHERE".data (by decide) '\n' (by decide) _ corpo_chunk_heads]
  have c1 : subCount "WHERE".data corpo_q1.data = 1 := by decide
  have c2 : subCount "WHERE".data corpo_q2.data = 2 := by decide
  have c3 : subCount "WHERE".data corpo_q3.data = 1 := by decide
  have c4 : subCount "WHERE".data corpo_q4.data = 1 := by decide
  have c5 : subCount "WHERE".data corpo_q5.data = 1 := by decide
  have c6 : subCount "WHERE".data corpo_q6.data = 0 := by decide
  have c7 : subCount "WHERE".data corpo_q7.data = 0 := by decide
  have c8 : subCount "WHERE".data corpo_q8.data = 0 := by decide
  have c9 : subCount "WHERE".data corpo_q9.data = 0 := by decide
  have c10 : subCount "WHERE".data corpo_q10.data = 0 := by decide
  have c11 : subCount "WHERE".data corpo_q11.data = 0 := by decide
  have c12 : subCount "WHERE".data corpo_q12.data = 0 := by decide
  have c13 : subCount "WHERE".data corpo_q13.data = 0 := by decide
  simp only [List.map_cons, List.map_nil, List.sum_cons, List.sum_nil]
  rw [c1, c2, c3, c4, c5, c6, c7, c8, c9, c10, c11, c12, c13]
  norm_num

theorem subCount_cauda_LIMIT (n : Int) :
    subCount "LIMIT".data
      (("\n    LIMIT ").data ++ ((Int.repr n).data ++ ("\n    ").data)) = 1 := by
  have hp' : ((['L', 'I', 'M', 'I', 'T'] : List Char)) ≠ [] := by decide
  have hnl : ('\n' : Char) ∉ (['L', 'I', 'M', 'I', 'T'] : List Char) := by decide
  have hrep : subCount (['L', 'I', 'M', 'I', 'T'] : List Char)
      (Int.repr n).data = 0 := subCount_repr_LIMIT n
  show subCount (['L', 'I', 'M', 'I', 'T'] : List Char) _ = 1
  simp only [List.cons_append, List.append_assoc, List.singleton_append,
    List.nil_append]
  repeat rw [subCount_cons_ne _ (by decide)]
  rw [subCount_LIMIT_marker]
  repeat rw [subCount_cons_ne _ (by decide)]
  rw [subCount_append_barrier hp' hnl]
  repeat rw [subCount_cons_ne _ (by decide)]
  rw [subCount_nil hp', hrep]

/-! ## The where clause as a string, by cases on the filter list -/

theorem where_clause_vazia (uf_filtrada : Option String)
    (cidades_nomes : Option (List String))
    (data_inicio_min data_inicio_max : Option String)
    (hfs : filtros uf_filtrada cidades_nomes data_inicio_min data_inicio_max = []) :
    where_clause uf_filtrada cidades_nomes data_inicio_min data_inicio_max = "" := by
  unfold where_clause
  rw [hfs]
  rfl

theorem where_clause_cons (uf_filtrada : Option String)
    (cidades_nomes : Option (List String))
    (data_inicio_min data_inicio_max : Option String) (a : String) (t : List String)
    (hfs : filtros uf_filtrada cidades_nomes data_inicio_min data_inicio_max = a :: t) :
    where_clause uf_filtrada cidades_nomes data_inicio_min data_inicio_max =
      "WHERE " ++ join_sep " AND " (a :: t) := by
  unfold where_clause
  rw [hfs]
  rfl

/-! ## Claims about the full generated query text -/

/-- Claim C4 counterexample: with no filters the filter-clause list is indeed
empty, but the generated query string still contains `WHERE` (six times, in
the fixed dictionary CTEs of the template), so "the generated query string
contains no WHERE clause" is false at this input. -/
theorem claim_C4_counterexample :
    filtros none none none none = []
    ∧ subCountS "WHERE" (montar_query none none none none 10000) ≠ 0 := by
  refine ⟨rfl, ?_⟩
  have hq : subCountS "WHERE" (montar_query none none none none 10000) = 6 := by
    unfold subCountS
    have hdata : (montar_query none none none none 10000).data =
        corpo_query.data ++ (("\n    LIMIT ").data ++
          ((Int.repr 10000).data ++ ("\n    ").data)) := by
      simp only [montar_query, data_append, List.append_assoc,
        show where_clause none none none none = "" from rfl,
        show ("" : String).data = ([] : List Char) from rfl, List.nil_append]
    rw [hdata]
    have hp : ("WHERE".data : List Char) ≠ [] := by decide
    have hnl : ('\n' : Char) ∉ "WHERE".data := by decide
    have hhead : (("\n    LIMIT ").data ++
        ((Int.repr 10000).data ++ ("\n    ").data)).head? = some '\n' := by
      rw [List.head?_append]
      rfl
    rw [subCount_append_of_head hp hnl _ _ hhead, subCount_corpo_WHERE]
    have hrest : subCount "WHERE".data (("\n    LIMIT ").data ++
        ((Int.repr 10000).data ++ ("\n    ").data)) = 0 := by decide
    rw [hrest]
  rw [hq]
  decide

/-- Claim C4 (amended): with no filter values, the filter-clause list is empty
and no filter WHERE clause is appended to the outer query: the interpolated
`where_clause` is the empty string and the query is the fixed template
followed directly by the LIMIT clause.  (The fixed template retains the WHERE
clauses of its own dictionary CTEs.) -/
theorem claim_C4 (n : Int) :
    filtros none none none none = []
    ∧ where_clause none none none none = ""
    ∧ montar_query none none none none n =
        corpo_query ++ ("\n    LIMIT " ++ (Int.repr n ++ "\n    ")) := by
  refine ⟨rfl, rfl, ?_⟩
  apply string_ext
  simp only [montar_query, data_append, List.append_assoc,
    show where_clause none none none none = "" from rfl,
    show ("" : String).data = ([] : List Char) from rfl, List.nil_append]

/-- Claim C6 counterexample: the generated query text does not end with
`LIMIT 10000`: its final characters are a newline and four spaces of
indentation, so `LIMIT <n>` is not a suffix of the text. -/
theorem claim_C6_counterexample :
    ¬ termina_com (montar_query none none none none 10000) "LIMIT 10000" := by
  rintro ⟨a, ha⟩
  have h1 : (montar_query none none none none 10000).data.getLast? = some ' ' := by
    simp only [montar_query, data_append, List.append_assoc, List.getLast?_append]
    rfl
  have h2 : (montar_query none none none none 10000).data.getLast? = some '0' := by
    rw [ha, data_append, List.getLast?_append]
    rfl
  rw [h1] at h2
  exact absurd h2 (by decide)

/-- Claim C6 (amended): for every row-limit value `n`, the generated query
text ends with `LIMIT <n>` followed only by the template's final newline and
four spaces of indentation, with `n` rendered verbatim in decimal, placed
after the WHERE clause (if any). -/
theorem claim_C6 (uf_filtrada : Option String)
    (cidades_nomes : Option (List String))
    (data_inicio_min data_inicio_max : Option String) (limite_linhas : Int) :
    montar_query uf_filtrada cidades_nomes data_inicio_min data_inicio_max
        limite_linhas =
      (corpo_query ++
        where_clause uf_filtrada cidades_nomes data_inicio_min data_inicio_max ++
        "\n    ") ++ ("LIMIT " ++ Int.repr limite_linhas ++ "\n    ")
    ∧ termina_com
        (montar_query uf_filtrada cidades_nomes data_inicio_min data_inicio_max
          limite_linhas)
        ("LIMIT " ++ Int.repr limite_linhas ++ "\n    ") := by
  have heq : montar_query uf_filtrada cidades_nomes data_inicio_min
      data_inicio_max limite_linhas =
      (corpo_query ++
        where_clause uf_filtrada cidades_nomes data_inicio_min data_inicio_max ++
        "\n    ") ++ ("LIMIT " ++ Int.repr limite_linhas ++ "\n    ") := by
    apply string_ext
    simp only [montar_query, data_append, List.append_assoc,
      show ("\n    LIMIT ").data = ("\n    ").data ++ ("LIMIT ").data from by decide,
      List.cons_append, List.nil_append]
  exact ⟨heq, ⟨_, heq⟩⟩

/-- Claim C9: the query contains exactly one occurrence of `LIMIT` whenever
none of the interpolated filter values themselves contains the text `LIMIT`
(the template writes exactly one LIMIT clause); when `limite_linhas` is
omitted it defaults to `10_000`, which differs from the UI form's initial
row-limit value `100_000`. -/
theorem claim_C9 (uf_filtrada : Option String)
    (cidades_nomes : Option (List String))
    (data_inicio_min data_inicio_max : Option String) (limite_linhas : Int)
    (h1 : subCountS "LIMIT" (getS uf_filtrada) = 0)
    (h2 : subCountS "LIMIT" (getS data_inicio_min) = 0)
    (h3 : subCountS "LIMIT" (getS data_inicio_max) = 0)
    (h4 : (getL cidades_nomes).all (fun c => subCountS "LIMIT" c == 0) = true) :
    subCountS "LIMIT"
        (montar_query uf_filtrada cidades_nomes data_inicio_min data_inicio_max
          limite_linhas) = 1
    ∧ montar_query uf_filtrada cidades_nomes data_inicio_min data_inicio_max =
        montar_query uf_filtrada cidades_nomes data_inicio_min data_inicio_max
          10000
    ∧ limite_linhas_valor_inicial = 100000
    ∧ (10000 : Int) ≠ limite_linhas_valor_inicial := by
  refine ⟨?_, rfl, rfl, by decide⟩
  unfold subCountS
  have h4' : ∀ c ∈ getL cidades_nomes, subCount "LIMIT".data c.data = 0 := by
    intro c hc
    have hb := List.all_eq_true.mp h4 c hc
    have : subCountS "LIMIT" c = 0 := by
      rwa [beq_iff_eq] at hb
    exact this
  have hfl := subCount_filtros_LIMIT uf_filtrada cidades_nomes data_inicio_min
    data_inicio_max h1 h2 h3 h4'
  have hp : ("LIMIT".data : List Char) ≠ [] := by decide
  have hnl : ('\n' : Char) ∉ "LIMIT".data := by decide
  have hW : ('W' : Char) ∉ "LIMIT".data := by decide
  have hd : ('d' : Char) ∉ "LIMIT".data := by decide
  have hdata : (montar_query uf_filtrada cidades_nomes data_inicio_min
      data_inicio_max limite_linhas).data =
      corpo_query.data ++
        ((where_clause uf_filtrada cidades_nomes data_inicio_min
            data_inicio_max).data ++
          (("\n    LIMIT ").data ++
            ((Int.repr limite_linhas).data ++ ("\n    ").data))) := by
    simp only [montar_query, data_append, List.append_assoc]
  rw [hdata]
  cases hfs : filtros uf_filtrada cidades_nomes data_inicio_min data_inicio_max with
  | nil =>
    rw [where_clause_vazia _ _ _ _ hfs,
      show ("" : String).data = ([] : List Char) from rfl, List.nil_append]
    have hhead : (("\n    LIMIT ").data ++
        ((Int.repr limite_linhas).data ++ ("\n    ").data)).head? = some '\n' := by
      rw [List.head?_append]
      rfl
    rw [subCount_append_of_head hp hnl _ _ hhead, subCount_corpo_LIMIT,
      subCount_cauda_LIMIT]
  | cons a t =>
    rw [where_clause_cons _ _ _ _ a t hfs, data_append, List.append_assoc]
    have hj := subCount_join_barrier hp " AND "
      (show (' ' : Char) ∉ "LIMIT".data from by decide) hd (by decide) (by rfl)
      (a :: t) (by simp)
      (fun f hf => hfl f (by rw [hfs]; exact hf))
    have hheadW : (("WHERE ").data ++ ((join_sep " AND " (a :: t)).data ++
        (("\n    LIMIT ").data ++
          ((Int.repr limite_linhas).data ++ ("\n    ").data)))).head?
        = some 'W' := by
      rw [List.head?_append]
      rfl
    rw [subCount_append_of_head hp hW _ _ hheadW, subCount_corpo_LIMIT]
    have hheadJ : ((join_sep " AND " (a :: t)).data ++
        (("\n    LIMIT ").data ++
          ((Int.repr limite_linhas).data ++ ("\n    ").data))).head?
        = some 'd' := by
      rw [List.head?_append, hj.2]
      rfl
    rw [subCount_append_of_head hp hd _ _ hheadJ]
    have hvW : subCount "LIMIT".data ("WHERE ").data = 0 := by decide
    rw [hvW]
    have hheadT : (("\n    LIMIT ").data ++
        ((Int.repr limite_linhas).data ++ ("\n    ").data)).head? = some '\n' := by
      rw [List.head?_append]
      rfl
    rw [subCount_append_of_head hp hnl _ _ hheadT, hj.1, subCount_cauda_LIMIT]

/-- Witness for claim C9 on a concrete set of filters. -/
theorem claim_C9_witness :
    subCountS "LIMIT" (getS (some "PR")) = 0
    ∧ subCountS "LIMIT" (getS (some "2023-05-16")) = 0
    ∧ subCountS "LIMIT" (getS (some "2025-05-16")) = 0
    ∧ (getL (some ["Curitiba"])).all (fun c => subCountS "LIMIT" c == 0) = true
    ∧ (subCountS "LIMIT" (montar_query (some "PR") (some ["Curitiba"])
          (some "2023-05-16") (some "2025-05-16") 100000) = 1
      ∧ montar_query (some "PR") (some ["Curitiba"]) (some "2023-05-16")
          (some "2025-05-16") =
          montar_query (some "PR") (some ["Curitiba"]) (some "2023-05-16")
            (some "2025-05-16") 10000
      ∧ limite_linhas_valor_inicial = 100000
      ∧ (10000 : Int) ≠ limite_linhas_valor_inicial) :=
  ⟨by decide, by decide, by decide, by decide,
    claim_C9 (some "PR") (some ["Curitiba"]) (some "2023-05-16")
      (some "2025-05-16") 100000 (by decide) (by decide) (by decide) (by decide)⟩

end ConsultaCNO
